import Mathlib

/-!
Verification of the field-coercion and identifier-remapping layer of
`src/tools/orm.py` (octranspo-db).

The Python source is shallowly embedded: dynamic values become the
inductive `Value`, raised exceptions become the `Except PyErr` monad,
Python dicts (which preserve insertion order and keep keys distinct)
become association lists with distinct keys, and each entity constructor
becomes an explicit state-passing function over the relevant mapping
tables.
-/

namespace Orm

/-- Dynamic Python values that flow through the coercion layer: raw field
strings, integers (resolved dense ids, parsed ints), exact decimal floats
(`vFloat n d` denotes `n / 10^d`), and `None`. -/
inductive Value where
  | vStr (s : String)
  | vInt (n : Int)
  | vFloat (n : Int) (d : Nat)
  | vNone
  deriving Repr, DecidableEq

/-- Python exceptions raised by the layer. -/
inductive PyErr where
  | assertionError (msg : String)
  | keyError (key : String)
  | valueError (msg : String)
  | typeError (msg : String)
  | runtimeError (msg : String)
  deriving Repr, DecidableEq

/-- Rendering of a value inside an error message, corresponding to
Python's `%r` formatting of the offending raw value. -/
def valueRepr : Value → String
  | .vStr s => "'" ++ s ++ "'"
  | .vInt n => toString n
  | .vFloat n d => toString n ++ "e-" ++ toString d
  | .vNone => "None"

/-- Numeric value of a list of decimal digit characters, as computed by
CPython `int` on a digit string. -/
def digitsToNat (l : List Char) : Nat :=
  l.foldl (fun a c => a * 10 + (c.toNat - 48)) 0

/-- Models CPython `int()` applied to a string: an optional sign followed
by one or more decimal digits parses to that integer, and any other
string raises `ValueError` (modelled as `none`).  Restricted to the
plain signed-digit forms that occur in the feed data. -/
def pyIntOfString (s : String) : Option Int :=
  match s.toList with
  | '-' :: ds =>
      if ds ≠ [] ∧ ds.all Char.isDigit then some (-(digitsToNat ds : Int)) else none
  | '+' :: ds =>
      if ds ≠ [] ∧ ds.all Char.isDigit then some (digitsToNat ds : Int) else none
  | ds =>
      if ds ≠ [] ∧ ds.all Char.isDigit then some (digitsToNat ds : Int) else none

/-- Unsigned part of a decimal float literal: digits, optionally a point
and more digits; returns numerator and number of decimal places. -/
def floatCore (l : List Char) : Option (Nat × Nat) :=
  match l.span Char.isDigit with
  | (ds, rest) =>
    match rest with
    | [] => if ds.isEmpty then none else some (digitsToNat ds, 0)
    | '.' :: fs =>
        if fs.all Char.isDigit ∧ ¬(ds.isEmpty ∧ fs.isEmpty) then
          some (digitsToNat (ds ++ fs), fs.length)
        else none
    | _ => none

/-- Models CPython `float()` on the plain decimal literals present in the
feed (optional sign, digits, optional fractional part; no exponent). -/
def pyFloat : Value → Except PyErr Value
  | .vStr s =>
    let core : Option Value :=
      match s.toList with
      | '-' :: rest => (floatCore rest).map (fun p => Value.vFloat (-(p.1 : Int)) p.2)
      | '+' :: rest => (floatCore rest).map (fun p => Value.vFloat (p.1 : Int) p.2)
      | l => (floatCore l).map (fun p => Value.vFloat (p.1 : Int) p.2)
    match core with
    | some v => .ok v
    | none => .error (.valueError ("could not convert string to float: '" ++ s ++ "'"))
  | .vInt n => .ok (.vFloat n 0)
  | .vFloat n d => .ok (.vFloat n d)
  | .vNone => .error (.typeError "float argument must not be None")

/-- `int_or_none` from the source: the empty string becomes `None`; any
other string has every leading `E` stripped (`str.lstrip('E')`) and is
then parsed by `int`; non-strings are passed to `int` directly. -/
def int_or_none (v : Value) : Except PyErr Value :=
  match v with
  | .vStr s =>
    if s = "" then .ok .vNone
    else
      let s2 := String.mk (s.toList.dropWhile (fun c => c == 'E'))
      match pyIntOfString s2 with
      | some n => .ok (.vInt n)
      | none => .error (.valueError ("invalid literal for int: '" ++ s2 ++ "'"))
  | .vInt n => .ok (.vInt n)
  | .vFloat n d => .ok (.vInt (Int.tdiv n ((10 : Int) ^ d)))
  | .vNone => .error (.typeError "int argument must not be None")

/-- SQLAlchemy column types used by the schema. -/
inductive ColType where
  | Integer
  | String
  | Float
  | Boolean
  deriving Repr, DecidableEq

/-- The `_converters` dict: type class to conversion function.  `Boolean`
has no entry, so looking it up raises `KeyError` (modelled as `none`). -/
def converterOf : ColType → Option (Value → Except PyErr Value)
  | .Integer => some int_or_none
  | .String => some (fun x => .ok x)
  | .Float => some pyFloat
  | .Boolean => none

/-- `strStarts n h` holds when list `n` is an initial segment of `h`. -/
def strStarts : List Char → List Char → Bool
  | [], _ => true
  | _ :: _, [] => false
  | a :: n, b :: h => a == b && strStarts n h

/-- `strHasSub n h` holds when `n` occurs contiguously inside `h`: the
semantics of Python's `in` operator on two strings. -/
def strHasSub (n : List Char) : List Char → Bool
  | [] => strStarts n []
  | c :: h => strStarts n (c :: h) || strHasSub n h

/-- An entity's `ignore_fields` class attribute is either a tuple of
field names or (by mistake, for `StopTime`) a bare string. -/
inductive IgnoreSpec where
  | tup (names : List String)
  | str (s : String)
  deriving Repr, DecidableEq

/-- Python's `k in ignore_fields`: membership for a tuple, contiguous
substring containment for a string. -/
def pyIn (k : String) : IgnoreSpec → Bool
  | .tup ns => ns.contains k
  | .str s => strHasSub k.toList s.toList

/-- Static description of one ORM entity class: its `__tablename__`, its
declared columns in order, and its `ignore_fields`. -/
structure TableSpec where
  tablename : String
  columns : List (String × ColType)
  ignore_fields : IgnoreSpec

/-- Lookup of a declared column's type by field name (`self.__table__.columns`). -/
def colLookup (cols : List (String × ColType)) (k : String) : Option ColType :=
  (cols.find? (fun p => p.1 == k)).map (fun p => p.2)

/-- The message of the missing-column assertion in `Mixin.__init__`. -/
def missingColMsg (k tab : String) : String :=
  "Missing column '" ++ k ++ "' in table '" ++ tab ++ "'"

/-- The message of the `RuntimeError` raised when a field converter fails. -/
def convMsg (k : String) (v : Value) : String :=
  "Problem converting field '" ++ k ++ "' value " ++ valueRepr v

/-- `Mixin.__init__`: for each keyword argument in order, skip it when its
name is `in ignore_fields`; otherwise assert the name is a declared
column, look up the converter for the column type, and set the attribute
to the converted value, re-raising any conversion exception as a
`RuntimeError` naming the field and the raw value.  Returns the list of
attributes set. -/
def mixinInit (t : TableSpec) : List (String × Value) → Except PyErr (List (String × Value))
  | [] => .ok []
  | (k, v) :: rest =>
    if pyIn k t.ignore_fields then
      mixinInit t rest
    else
      match colLookup t.columns k with
      | none => .error (.assertionError (missingColMsg k t.tablename))
      | some ty =>
        match converterOf ty with
        | none => .error (.keyError "field type not in converters")
        | some conv =>
          match conv v with
          | .ok w =>
            match mixinInit t rest with
            | .ok attrs => .ok ((k, w) :: attrs)
            | .error e => .error e
          | .error _ => .error (.runtimeError (convMsg k v))

/-- The `days` table (`ServiceDay`). -/
def serviceDayTable : TableSpec where
  tablename := "days"
  columns := [("_id", .Integer), ("date", .String), ("service_id", .Integer)]
  ignore_fields := .tup []

/-- The `stops` table (`Stop`). -/
def stopTable : TableSpec where
  tablename := "stops"
  columns := [("_id", .Integer), ("stop_id", .String), ("stop_code", .String),
    ("stop_name", .String), ("stop_lat", .Float), ("stop_lon", .Float)]
  ignore_fields := .tup ["stop_desc", "stop_url", "location_type", "zone_id"]

/-- The `routes` table (`Route`). -/
def routeTable : TableSpec where
  tablename := "routes"
  columns := [("route_id", .String), ("route_short_name", .String),
    ("route_color", .String), ("route_text_color", .String)]
  ignore_fields := .tup ["route_long_name", "route_desc", "route_type", "route_url"]

/-- The `directed_routes` table (`DirectedRoute`). -/
def directedRouteTable : TableSpec where
  tablename := "directed_routes"
  columns := [("_id", .Integer), ("route_id", .String), ("direction_id", .Integer),
    ("route_modal_headsign", .String)]
  ignore_fields := .tup []

/-- The `trips` table (`Trip`). -/
def tripTable : TableSpec where
  tablename := "trips"
  columns := [("trip_id", .Integer), ("route_id", .String), ("service_id", .Integer),
    ("trip_headsign", .String), ("direction_id", .Integer), ("block_id", .Integer),
    ("shape_id", .Integer), ("last_stop_sequence", .Integer),
    ("is_representative", .Boolean)]
  ignore_fields := .tup []

/-- The `stop_times` table (`StopTime`).  Note `ignore_fields` is the bare
string `'departure_time'`, not a one-element tuple. -/
def stopTimeTable : TableSpec where
  tablename := "stop_times"
  columns := [("id", .Integer), ("trip_id", .Integer), ("arrival_time", .Integer),
    ("stop_id", .Integer), ("stop_sequence", .Integer), ("pickup_type", .Integer),
    ("drop_off_type", .Integer)]
  ignore_fields := .str "departure_time"

/-- A mapping table (`Stop.mapping`, `Trip.mapping`,
`ServiceDay.service_mapping`): a Python dict from external key to dense
integer id, modelled as an insertion-ordered association list with
distinct keys. -/
abbrev Dict := List (String × Nat)

/-- `m[k]` as an option: dict lookup (the first — and with distinct keys,
only — entry whose key equals `k`). -/
def dictGet : Dict → String → Option Nat
  | [], _ => none
  | (k0, v0) :: rest, k => if k0 == k then some v0 else dictGet rest k

/-- `m[k] = v`: update the entry in place when `k` is present, otherwise
append it, exactly as a Python dict does. -/
def dictInsert (m : Dict) (k : String) (v : Nat) : Dict :=
  match m with
  | [] => [(k, v)]
  | (k0, v0) :: rest =>
    if k0 == k then (k, v) :: rest else (k0, v0) :: dictInsert rest k v

/-- `len(m)`: with the distinct-keys invariant, the list length. -/
def dictLen (m : Dict) : Nat := m.length

/-- `m[k]` as an expression: resolution of an external key, raising
`KeyError` when the key was never assigned. -/
def dictResolve (m : Dict) (k : String) : Except PyErr Nat :=
  match dictGet m k with
  | some v => .ok v
  | none => .error (.keyError k)

/-- Core of `parse_time` on the character list of an 8-character string:
`re.match` of `([0-9][0-9]):([0-9][0-9]):([0-9][0-9])` followed by
`int` on the first two groups, returning `hours*60 + minutes`. -/
def parse_time_core (l : List Char) : Except PyErr Nat :=
  match l with
  | [h1, h2, c1, m1, m2, c2, s1, s2] =>
    if h1.isDigit && h2.isDigit && c1 == ':' && m1.isDigit && m2.isDigit &&
        c2 == ':' && s1.isDigit && s2.isDigit then
      .ok (((h1.toNat - 48) * 10 + (h2.toNat - 48)) * 60 +
        ((m1.toNat - 48) * 10 + (m2.toNat - 48)))
    else
      .error (.assertionError "time regex match failed")
  | _ => .error (.assertionError "time regex match failed")

/-- `parse_time` from the source: assert the string has exactly 8
characters, match it against the two-digit-colon pattern (a failed match
is an `AssertionError`), and return minutes since midnight; the seconds
group is matched but discarded. -/
def parse_time (s : String) : Except PyErr Nat :=
  if s.length ≠ 8 then .error (.assertionError ("bad time string '" ++ s ++ "'"))
  else parse_time_core s.toList

/-- The well-formedness test the spec describes for time strings: exactly
8 characters in the shape `HH:MM:SS` with ASCII-digit fields. -/
def timeShape : List Char → Bool
  | [h1, h2, c1, m1, m2, c2, s1, s2] =>
    h1.isDigit && h2.isDigit && c1 == ':' && m1.isDigit && m2.isDigit &&
      c2 == ':' && s1.isDigit && s2.isDigit
  | _ => false

/-- `Stop.__init__`: read `id = len(Stop.mapping)`, assert the external
`stop_id` is not already mapped, insert `stop_id → id`, then run the
mixin constructor with `_id=id, stop_id=stop_id` and the remaining
keyword arguments.  Returns the (possibly mutated) mapping together with
the construction result. -/
def stopNew (m : Dict) (stop_id : String) (kargs : List (String × Value)) :
    Dict × Except PyErr (List (String × Value)) :=
  let id := dictLen m
  if (dictGet m stop_id).isSome then
    (m, .error (.assertionError "duplicate stop_id"))
  else
    (dictInsert m stop_id id,
      mixinInit stopTable (("_id", .vInt id) :: ("stop_id", .vStr stop_id) :: kargs))

/-- The id computation of lines 132-133 of `Trip.__init__` taken alone:
`new_id = len(Trip.mapping); Trip.mapping[trip_id] = new_id`, with no
duplicate check.  Returns the assigned id and the updated mapping. -/
def tripAssignId (m : Dict) (trip_id : String) : Nat × Dict :=
  (dictLen m, dictInsert m trip_id (dictLen m))

/-- `Trip.__init__`: assign a dense id to `trip_id` (silently overwriting
any existing entry), resolve `service_id` through
`ServiceDay.service_mapping` (`KeyError` when absent — note the trip
mapping is already mutated at that point), then run the mixin
constructor with `trip_id=new_id, service_id=resolved`. -/
def tripNew (tm : Dict) (sm : Dict) (trip_id : String) (service_id : String)
    (kargs : List (String × Value)) : Dict × Except PyErr (List (String × Value)) :=
  let r := tripAssignId tm trip_id
  match dictGet sm service_id with
  | none => (r.2, .error (.keyError service_id))
  | some sid =>
    (r.2, mixinInit tripTable
      (("trip_id", .vInt r.1) :: ("service_id", .vInt sid) :: kargs))

/-- `StopTime.__init__`: resolve `trip_id` through `Trip.mapping` and
`stop_id` through `Stop.mapping` (each `KeyError` when never assigned),
parse `arrival_time`, then run the mixin constructor.  No mapping is
mutated. -/
def stopTimeNew (tripM : Dict) (stopM : Dict) (trip_id : String) (stop_id : String)
    (arrival_time : String) (kargs : List (String × Value)) :
    Except PyErr (List (String × Value)) :=
  match dictGet tripM trip_id with
  | none => .error (.keyError trip_id)
  | some t =>
    match dictGet stopM stop_id with
    | none => .error (.keyError stop_id)
    | some st =>
      match parse_time arrival_time with
      | .error e => .error e
      | .ok at0 =>
        mixinInit stopTimeTable
          (("trip_id", .vInt t) :: ("stop_id", .vInt st) ::
            ("arrival_time", .vInt at0) :: kargs)

/-- Repeated Trip id assignment: the mapping after assigning each key in
order, paired with the list of assigned ids. -/
def tripAssignMany : Dict → List String → Dict × List Nat
  | m, [] => (m, [])
  | m, k :: ks =>
    let r := tripAssignId m k
    let rest := tripAssignMany r.2 ks
    (rest.1, r.1 :: rest.2)

/-- Repeated Stop id assignment (the mapping part of `Stop.__init__`):
aborts with the duplicate-key `AssertionError` exactly as the exception
would abort the load. -/
def stopAssignMany : Dict → List String → Except PyErr (Dict × List Nat)
  | m, [] => .ok (m, [])
  | m, k :: ks =>
    if (dictGet m k).isSome then .error (.assertionError "duplicate stop_id")
    else
      match stopAssignMany (dictInsert m k (dictLen m)) ks with
      | .ok (m2, ids) => .ok (m2, dictLen m :: ids)
      | .error e => .error e

/-- Recogniser for the duplicate-key `AssertionError`. -/
def isAssertErr {α : Type} : Except PyErr α → Bool
  | .error (.assertionError _) => true
  | _ => false

/-- Recogniser for successful construction. -/
def isOk {α : Type} : Except PyErr α → Bool
  | .ok _ => true
  | _ => false

/-- Lookup of a set attribute on a constructed entity. -/
def attrGet (attrs : List (String × Value)) (k : String) : Option Value :=
  (attrs.find? (fun p => p.1 == k)).map (fun p => p.2)

/-! ## Dictionary lemmas -/

theorem dictGet_dictInsert (m : Dict) (k k1 : String) (v : Nat) :
    dictGet (dictInsert m k v) k1 = if k1 = k then some v else dictGet m k1 := by
  induction m with
  | nil =>
    by_cases h : k1 = k
    · simp [dictInsert, dictGet, h]
    · simp [dictInsert, dictGet, h, Ne.symm h]
  | cons p rest ih =>
    obtain ⟨k0, v0⟩ := p
    by_cases h0 : k0 = k
    · subst h0
      by_cases h : k1 = k0
      · simp [dictInsert, dictGet, h]
      · simp [dictInsert, dictGet, h, Ne.symm h]
    · by_cases h : k1 = k
      · subst h
        simp [dictInsert, dictGet, h0, Ne.symm h0, ih]
      · simp [dictInsert, dictGet, h0, h, ih]

theorem dictLen_dictInsert_fresh (m : Dict) (k : String) (v : Nat)
    (h : dictGet m k = none) :
    dictLen (dictInsert m k v) = dictLen m + 1 := by
  induction m with
  | nil => rfl
  | cons p rest ih =>
    obtain ⟨k0, v0⟩ := p
    by_cases h0 : k0 = k
    · simp [dictGet, h0] at h
    · have h1 : dictGet rest k = none := by simpa [dictGet, h0] using h
      simp only [dictInsert, dictLen] at ih ⊢
      simp [h0, ih h1]

/-! ## Sequential id assignment (claim C1) -/

theorem assignMany_fresh (ks : List String) : ∀ m : Dict, ks.Nodup →
    (∀ k ∈ ks, dictGet m k = none) →
    (tripAssignMany m ks).2 = List.range' (dictLen m) ks.length ∧
    stopAssignMany m ks = .ok (tripAssignMany m ks) := by
  induction ks with
  | nil => exact fun m _ _ => ⟨rfl, rfl⟩
  | cons k ks ih =>
    intro m hnd hf
    have hk : dictGet m k = none := hf k (List.mem_cons_self k ks)
    have hf2 : ∀ k1 ∈ ks, dictGet (dictInsert m k (dictLen m)) k1 = none := by
      intro k1 hk1
      rw [dictGet_dictInsert]
      have hne : k1 ≠ k := by
        intro he
        subst he
        exact (List.nodup_cons.mp hnd).1 hk1
      simp [hne, hf k1 (List.mem_cons_of_mem _ hk1)]
    obtain ⟨ih1, ih2⟩ :=
      ih (dictInsert m k (dictLen m)) (List.nodup_cons.mp hnd).2 hf2
    constructor
    · simp only [tripAssignMany, tripAssignId, ih1,
        dictLen_dictInsert_fresh m k _ hk, List.length_cons, List.range'_succ]
    · simp only [stopAssignMany, tripAssignMany, tripAssignId, hk,
        Option.isSome_none, Bool.false_eq_true, if_false, ih2]

/-- C1 (amended): every assignment into `Trip.mapping` stores an id equal
to the number of entries already in the table at assignment time, and for
any sequence of pairwise-distinct keys the assigned ids are strictly
sequential `0, 1, ..., n-1` with no reuse and no gaps — with `Stop.mapping`
assignments succeeding and behaving identically on such a sequence.  (The
original claim's "regardless of key content" fails for `Trip`, which does
not reject duplicate keys: see the counterexample.) -/
theorem id_assignment_sequential :
    (∀ (m : Dict) (k : String), (tripAssignId m k).1 = dictLen m) ∧
    (∀ ks : List String, ks.Nodup →
      (tripAssignMany [] ks).2 = List.range ks.length ∧
      stopAssignMany [] ks = .ok (tripAssignMany [] ks)) := by
  constructor
  · intro m k
    rfl
  · intro ks hnd
    have h := assignMany_fresh ks [] hnd (fun k _ => rfl)
    rw [List.range_eq_range']
    exact h

/-- C1 witness: assigning the distinct keys `A`, `B`, `C` yields ids
`0, 1, 2` for Trip, and Stop assignment agrees. -/
theorem id_assignment_sequential_witness :
    (tripAssignMany [] ["A", "B", "C"]).2 = List.range 3 ∧
    stopAssignMany [] ["A", "B", "C"] = .ok (tripAssignMany [] ["A", "B", "C"]) :=
  id_assignment_sequential.2 ["A", "B", "C"] (by decide)

/-- C1 counterexample: assigning trip keys `A`, `A`, `B` returns ids
`0, 1, 1` — id 1 is reused, so the ids are not strictly sequential with
no reuse "regardless of key content". -/
theorem id_assignment_sequential_counterexample :
    (tripAssignMany [] ["A", "A", "B"]).2 = [0, 1, 1] ∧
    ¬ (tripAssignMany [] ["A", "A", "B"]).2.Nodup ∧
    (tripAssignMany [] ["A", "A", "B"]).2 ≠ List.range 3 := by
  refine ⟨rfl, ?_, ?_⟩ <;> decide

/-- C2: constructing a Stop whose external `stop_id` is already present
in `Stop.mapping` — whatever the mapping state, the key, or the remaining
keyword arguments — raises the duplicate-key `AssertionError` and leaves
the mapping unchanged; for the assignment sequence `A`, `B`, `A` the
first two succeed, mapping `A` to 0 and `B` to 1, and the third raises. -/
theorem stop_duplicate_key :
    (∀ (m : Dict) (k : String) (kargs : List (String × Value)),
      (dictGet m k).isSome = true →
      stopNew m k kargs = (m, .error (.assertionError "duplicate stop_id"))) ∧
    (stopNew [] "A" []).1 = [("A", 0)] ∧
    isOk (stopNew [] "A" []).2 = true ∧
    (stopNew [("A", 0)] "B" []).1 = [("A", 0), ("B", 1)] ∧
    isOk (stopNew [("A", 0)] "B" []).2 = true ∧
    dictGet [("A", 0), ("B", 1)] "A" = some 0 ∧
    dictGet [("A", 0), ("B", 1)] "B" = some 1 ∧
    isAssertErr (stopNew [("A", 0), ("B", 1)] "A" []).2 = true ∧
    (stopNew [("A", 0), ("B", 1)] "A" []).1 = [("A", 0), ("B", 1)] := by
  refine ⟨?_, rfl, rfl, rfl, rfl, rfl, rfl, rfl, rfl⟩
  intro m k kargs h
  simp [stopNew, h]

/-- C2 witness: the table `{A: 0, B: 1}` already contains `A`, and
constructing a third Stop with `stop_id="A"` raises the duplicate-key
`AssertionError`, leaving the table unchanged. -/
theorem stop_duplicate_key_witness :
    stopNew [("A", 0), ("B", 1)] "A" [] =
      ([("A", 0), ("B", 1)], .error (.assertionError "duplicate stop_id")) :=
  stop_duplicate_key.1 [("A", 0), ("B", 1)] "A" [] rfl

/-- C3: constructing a Trip whose external `trip_id` is already mapped
raises no duplicate-key error: the entry is silently overwritten with the
fresh dense id `len(Trip.mapping)` and construction proceeds exactly as
for an unseen key. -/
theorem trip_duplicate_overwritten (tm sm : Dict) (tid sid : String)
    (kargs : List (String × Value)) (n : Nat)
    (_hdup : (dictGet tm tid).isSome = true) (hs : dictGet sm sid = some n) :
    dictGet (tripNew tm sm tid sid kargs).1 tid = some (dictLen tm) ∧
    (tripNew tm sm tid sid kargs).2 =
      mixinInit tripTable
        (("trip_id", .vInt (dictLen tm)) :: ("service_id", .vInt n) :: kargs) := by
  constructor
  · simp [tripNew, tripAssignId, hs, dictGet_dictInsert]
  · simp [tripNew, tripAssignId, hs]

/-- C3 witness: remapping trip key `A` (already mapped to 0) with the
service table `S ↦ 5` overwrites `A ↦ 1` and constructs the entity. -/
theorem trip_duplicate_overwritten_witness :
    dictGet (tripNew [("A", 0)] [("S", 5)] "A" "S" []).1 "A" = some 1 ∧
    (tripNew [("A", 0)] [("S", 5)] "A" "S" []).2 =
      mixinInit tripTable [("trip_id", .vInt 1), ("service_id", .vInt 5)] :=
  trip_duplicate_overwritten [("A", 0)] [("S", 5)] "A" "S" [] 5 rfl rfl

/-- C4: resolving a never-assigned external key is fatal — a StopTime
whose `trip_id` is not in `Trip.mapping`, or whose `stop_id` is not in
`Stop.mapping`, and a Trip whose `service_id` is not in
`ServiceDay.service_mapping`, each raise `KeyError` on that key. -/
theorem unresolved_reference_fatal :
    (∀ (tripM stopM : Dict) (tid st at0 : String) (kargs : List (String × Value)),
      dictGet tripM tid = none →
      stopTimeNew tripM stopM tid st at0 kargs = .error (.keyError tid)) ∧
    (∀ (tripM stopM : Dict) (tid st at0 : String) (kargs : List (String × Value)) (t : Nat),
      dictGet tripM tid = some t → dictGet stopM st = none →
      stopTimeNew tripM stopM tid st at0 kargs = .error (.keyError st)) ∧
    (∀ (tm sm : Dict) (tid sid : String) (kargs : List (String × Value)),
      dictGet sm sid = none →
      (tripNew tm sm tid sid kargs).2 = .error (.keyError sid)) := by
  refine ⟨?_, ?_, ?_⟩
  · intro tripM stopM tid st at0 kargs h
    simp [stopTimeNew, h]
  · intro tripM stopM tid st at0 kargs t h1 h2
    simp [stopTimeNew, h1, h2]
  · intro tm sm tid sid kargs h
    simp [tripNew, h]

/-- C4 witness: with empty mapping tables, a StopTime referencing trip
`T1` raises `KeyError` on `T1`. -/
theorem unresolved_reference_fatal_witness :
    stopTimeNew [] [] "T1" "S1" "08:15:00" [] = .error (.keyError "T1") :=
  unresolved_reference_fatal.1 [] [] "T1" "S1" "08:15:00" [] rfl

/-- Helper for C5: leading `E`s do not affect non-empty string integer
conversion, because `lstrip('E')` removes all of them. -/
theorem int_or_none_cons_E (s : String) (h : s ≠ "") :
    int_or_none (.vStr ("E" ++ s)) = int_or_none (.vStr s) := by
  cases s with
  | mk data =>
    have h2 : data ≠ [] := fun hd => h (by rw [hd])
    show int_or_none (.vStr (String.mk ('E' :: data))) =
      int_or_none (.vStr (String.mk data))
    simp only [int_or_none]
    rw [if_neg (fun he => absurd (congrArg String.data he) (by simp)),
      if_neg (fun he => h2 (congrArg String.data he))]
    have hdrop : (String.mk ('E' :: data)).toList.dropWhile (fun c => c == 'E') =
        (String.mk data).toList.dropWhile (fun c => c == 'E') := by
      show List.dropWhile _ ('E' :: data) = List.dropWhile _ data
      simp [List.dropWhile]
    rw [hdrop]

/-- C5 counterexample: the integer converter maps `"EE123"` to `123`
(every leading `E` is stripped), whereas stripping only the single
leading `E` would leave `"E123"`, which does not parse as an integer —
so "strips that leading character and parses the remainder" is false
for `"EE123"`. -/
theorem int_conversion_counterexample :
    int_or_none (.vStr "EE123") = .ok (.vInt 123) ∧
    pyIntOfString "E123" = none := ⟨rfl, rfl⟩

/-- C5 (amended): the integer converter maps `""` to `None`; any other
string has ALL leading `E` characters stripped before integer parsing
(`"E123"` and `"EE123"` both yield `123`); a plain numeric string parses
directly; and a conversion failure inside the mixin constructor is
reported as a single `RuntimeError` naming the field and the offending
raw value. -/
theorem int_conversion :
    int_or_none (.vStr "") = .ok .vNone ∧
    int_or_none (.vStr "E123") = .ok (.vInt 123) ∧
    int_or_none (.vStr "EE123") = .ok (.vInt 123) ∧
    int_or_none (.vStr "45") = .ok (.vInt 45) ∧
    (∀ s : String, s ≠ "" →
      int_or_none (.vStr ("E" ++ s)) = int_or_none (.vStr s)) ∧
    (∀ (t : TableSpec) (k : String) (v : Value) (e : PyErr),
      pyIn k t.ignore_fields = false → colLookup t.columns k = some .Integer →
      int_or_none v = .error e →
      mixinInit t [(k, v)] = .error (.runtimeError (convMsg k v))) := by
  refine ⟨rfl, rfl, rfl, rfl, int_or_none_cons_E, ?_⟩
  intro t k v e hig hcol hconv
  simp [mixinInit, hig, hcol, converterOf, hconv]

/-- C5 witness: the non-numeric string `abc` fails integer conversion,
and the mixin reports it as a `RuntimeError` naming the field
`direction_id` and the raw value `'abc'`. -/
theorem int_conversion_witness :
    mixinInit tripTable [("direction_id", .vStr "abc")] =
      .error (.runtimeError (convMsg "direction_id" (.vStr "abc"))) :=
  int_conversion.2.2.2.2.2 tripTable "direction_id" (.vStr "abc")
    (.valueError "invalid literal for int: 'abc'") rfl rfl rfl

/-- C6: for every 8-character string of shape `HH:MM:SS` (two-digit
zero-padded fields, colon-separated), `parse_time` returns
`hours*60 + minutes`, discarding the seconds digits; in particular
`"08:15:00" ↦ 495`, `"00:00:00" ↦ 0`, `"23:59:59" ↦ 1439`, and the hours
field is not range-checked: `"25:00:00" ↦ 1500`. -/
theorem parse_time_wellformed (a b c d e f : Char)
    (ha : a.isDigit = true) (hb : b.isDigit = true) (hc : c.isDigit = true)
    (hd : d.isDigit = true) (he : e.isDigit = true) (hf : f.isDigit = true) :
    parse_time (String.mk [a, b, ':', c, d, ':', e, f]) =
      .ok (((a.toNat - 48) * 10 + (b.toNat - 48)) * 60 +
        ((c.toNat - 48) * 10 + (d.toNat - 48))) ∧
    parse_time "08:15:00" = .ok 495 ∧
    parse_time "00:00:00" = .ok 0 ∧
    parse_time "23:59:59" = .ok 1439 ∧
    parse_time "25:00:00" = .ok 1500 := by
  refine ⟨?_, rfl, rfl, rfl, rfl⟩
  show parse_time_core [a, b, ':', c, d, ':', e, f] = _
  simp [parse_time_core, ha, hb, hc, hd, he, hf]

/-- C6 witness: `parse_time` on the characters of `"08:15:00"` yields
`495` minutes. -/
theorem parse_time_wellformed_witness :
    parse_time (String.mk ['0', '8', ':', '1', '5', ':', '0', '0']) = .ok 495 :=
  (parse_time_wellformed '0' '8' '1' '5' '0' '0'
    rfl rfl rfl rfl rfl rfl).1

/-- Helper for C7: the regex-match stage fails on every character list
that does not have the `HH:MM:SS` shape. -/
theorem parse_time_core_malformed (l : List Char) (h : timeShape l = false) :
    isAssertErr (parse_time_core l) = true := by
  unfold parse_time_core
  split
  · rename_i h1 h2 c1 m1 m2 c2 s1 s2
    simp only [timeShape] at h
    split
    · rename_i hc
      rw [hc] at h
      exact Bool.noConfusion h
    · rfl
  · rfl

/-- C7: `parse_time` raises the fatal `AssertionError` on every string
that is not exactly 8 characters matching the two-digit-colon pattern;
in particular on `"8:15:00"` (7 characters) and on `"08-15-00"`. -/
theorem parse_time_malformed :
    (∀ s : String, timeShape s.toList = false → isAssertErr (parse_time s) = true) ∧
    isAssertErr (parse_time "8:15:00") = true ∧
    isAssertErr (parse_time "08-15-00") = true := by
  refine ⟨?_, rfl, rfl⟩
  intro s h
  rw [parse_time]
  split
  · rfl
  · rename_i hlen
    exact parse_time_core_malformed s.toList h

/-- C7 witness: `"08:15:0"` (7 characters) fails the shape test and
`parse_time` raises. -/
theorem parse_time_malformed_witness :
    isAssertErr (parse_time "08:15:0") = true :=
  parse_time_malformed.1 "08:15:0" rfl

/-- C8: the generic mixin constructor skips a field entirely (no
coercion, no storage, no validation) when its name is `in` the entity's
`ignore_fields`; any other field name must be a declared column, its
absence raising the schema-mismatch `AssertionError` naming the field and
the table. -/
theorem mixin_ignore_and_schema :
    (∀ (t : TableSpec) (k : String) (v : Value) (rest : List (String × Value)),
      pyIn k t.ignore_fields = true →
      mixinInit t ((k, v) :: rest) = mixinInit t rest) ∧
    (∀ (t : TableSpec) (k : String) (v : Value) (rest : List (String × Value)),
      pyIn k t.ignore_fields = false → colLookup t.columns k = none →
      mixinInit t ((k, v) :: rest) =
        .error (.assertionError (missingColMsg k t.tablename))) := by
  constructor
  · intro t k v rest hig
    simp [mixinInit, hig]
  · intro t k v rest hig hcol
    simp [mixinInit, hig, hcol]

/-- C8 witness: `stop_desc` is in Stop's ignore tuple and is skipped;
the undeclared field `bogus` raises the missing-column assertion. -/
theorem mixin_ignore_and_schema_witness :
    mixinInit stopTable [("stop_desc", .vStr "x")] = mixinInit stopTable [] ∧
    mixinInit stopTable [("bogus", .vStr "x")] =
      .error (.assertionError (missingColMsg "bogus" stopTable.tablename)) :=
  ⟨mixin_ignore_and_schema.1 stopTable "stop_desc" (.vStr "x") [] rfl,
    mixin_ignore_and_schema.2 stopTable "bogus" (.vStr "x") [] rfl rfl⟩

/-- C9: with `ServiceDay.service_mapping = {WKDY: 7}`, constructing a
Trip with `trip_id="T1", service_id="WKDY"` yields stored dense trip id 0
and resolved service_id 7, and a second Trip `T2` yields dense trip id
1 with the same resolved service_id. -/
theorem trip_end_to_end :
    tripNew [] [("WKDY", 7)] "T1" "WKDY" [] =
      ([("T1", 0)], .ok [("trip_id", .vInt 0), ("service_id", .vInt 7)]) ∧
    attrGet [("trip_id", Value.vInt 0), ("service_id", Value.vInt 7)] "trip_id" =
      some (.vInt 0) ∧
    attrGet [("trip_id", Value.vInt 0), ("service_id", Value.vInt 7)] "service_id" =
      some (.vInt 7) ∧
    tripNew [("T1", 0)] [("WKDY", 7)] "T2" "WKDY" [] =
      ([("T1", 0), ("T2", 1)], .ok [("trip_id", .vInt 1), ("service_id", .vInt 7)]) :=
  ⟨rfl, rfl, rfl, rfl⟩

/-- C10: `StopTime.ignore_fields` is the bare string
`'departure_time'`, so the ignore check is Python substring containment:
every field whose name occurs contiguously in `departure_time` (such as
`time`, `departure`, or `art`) is skipped outright, and only
non-substring names reach column validation and coercion. -/
theorem stoptime_ignore_substring :
    stopTimeTable.ignore_fields = IgnoreSpec.str "departure_time" ∧
    (∀ (k : String) (v : Value) (rest : List (String × Value)),
      strHasSub k.toList "departure_time".toList = true →
      mixinInit stopTimeTable ((k, v) :: rest) = mixinInit stopTimeTable rest) ∧
    (∀ (k : String) (v : Value),
      strHasSub k.toList "departure_time".toList = false →
      colLookup stopTimeTable.columns k = none →
      mixinInit stopTimeTable [(k, v)] =
        .error (.assertionError (missingColMsg k "stop_times"))) ∧
    mixinInit stopTimeTable
      [("time", .vStr "x"), ("departure", .vStr "x"), ("art", .vStr "x")] = .ok [] := by
  refine ⟨rfl, ?_, ?_, rfl⟩
  · intro k v rest hsub
    have hig : pyIn k stopTimeTable.ignore_fields = true := hsub
    simp [mixinInit, hig]
  · intro k v hsub hcol
    have hig : pyIn k stopTimeTable.ignore_fields = false := hsub
    simp only [mixinInit, hig, Bool.false_eq_true, if_false, hcol]
    rfl

/-- C10 witness: the field name `art` (a substring of `departure_time`)
is skipped by the StopTime constructor even though it is not a column. -/
theorem stoptime_ignore_substring_witness :
    mixinInit stopTimeTable [("art", .vStr "x")] = mixinInit stopTimeTable [] :=
  stoptime_ignore_substring.2.1 "art" (.vStr "x") [] rfl

end Orm
